import Mathlib

/-!
Shallow embedding of the malware-classification pipeline of this repository:
the PE attribute extractor (`defender/feature_extractor.py`), the inference
service (`defender/inference_service.py`), the XGBoost prediction wrapper
(`defender/models/predict_xgb.py`) and the Flask route
(`defender/__main__.py`).  External libraries (lief, ember, xgboost, sklearn)
are modelled as explicit function parameters; everything written in the
repository itself is translated line by line.
-/

set_option maxRecDepth 100000

namespace Defender

/-! ## Content statistics: `PEAttributeExtractor.extract_entropy`

Python source (feature_extractor.py, lines 50-58):

    def extract_entropy(self):
        if not self.bytez:
            return 0
        entropy=0
        for x in range(256):
            p_x = float(self.bytez.count(bytes(x)))/len(self.bytez)
            if p_x>0:
                entropy += - p_x*math.log(p_x, 2)
        return entropy

Note that in Python 3 `bytes(x)` for an integer `x` is a zero-filled buffer
of length `x` (so `bytes(0) = b''`, `bytes(3) = b'\x00\x00\x00'`), and
`bytes.count` counts non-overlapping occurrences of a subsequence, with the
empty pattern counted `len + 1` times.  The embedding reproduces exactly
these semantics. -/

/-- A byte value; the Python code never constrains it below 256, and the
embedding does not need to. -/
abbrev Byte := Nat

/-- Boolean test that `pat` is a prefix of `s` (byte-wise equality). -/
def patMatches : List Byte → List Byte → Bool
  | [], _ => true
  | _ :: _, [] => false
  | a :: as, b :: bs => a == b && patMatches as bs

/-- Fueled scan counting non-overlapping occurrences of `pat` in the second
list, moving left to right and skipping the length of `pat` after a match
(the semantics of Python's `bytes.count` for a non-empty pattern).  The fuel
only needs to be at least the length of the scanned list. -/
def countNOAux (pat : List Byte) : Nat → List Byte → Nat
  | 0, _ => 0
  | _ + 1, [] => 0
  | fuel + 1, b :: rest =>
    if patMatches pat (b :: rest) then
      1 + countNOAux pat fuel (List.drop (pat.length - 1) rest)
    else
      countNOAux pat fuel rest

/-- Python's `s.count(pat)` on bytes: non-overlapping occurrence count, with
the empty pattern counted `len(s) + 1` times. -/
def countNonOverlap (pat s : List Byte) : Nat :=
  if pat = [] then s.length + 1 else countNOAux pat s.length s

/-- Python 3 `bytes(x)` for an integer `x`: a zero-filled buffer of length
`x`.  (The code presumably intended `bytes([x])`, the single byte `x`.) -/
def pyBytes (x : Nat) : List Byte := List.replicate x 0

/-- One summand of the entropy loop: `- p * log2 p` when `p > 0`, else the
term is skipped (contributes `0`). -/
noncomputable def entTerm (p : ℝ) : ℝ := if 0 < p then -(p * Real.logb 2 p) else 0

/-- `PEAttributeExtractor.extract_entropy`, translated from the source: the
"probability" of `x` is `bytez.count(bytes(x)) / len(bytez)` with Python-3
`bytes(x)` semantics. -/
noncomputable def extract_entropy (bytez : List Byte) : ℝ :=
  if bytez.length = 0 then 0
  else ∑ x ∈ Finset.range 256,
    entTerm ((countNonOverlap (pyBytes x) bytez : ℝ) / (bytez.length : ℝ))

/-- Modelled from the spec: base-2 Shannon entropy of the byte-value
histogram — for each byte value `v` in `[0,255]`, `p_v = count(v)/length`,
entropy `= −Σ p_v·log2(p_v)` over `p_v > 0`, and `0` for empty content.
Stated only to compare with `extract_entropy`, the definition translated
from the source. -/
noncomputable def shannonEntropySpec (bytez : List Byte) : ℝ :=
  if bytez.length = 0 then 0
  else ∑ v ∈ Finset.range 256,
    entTerm ((bytez.count v : ℝ) / (bytez.length : ℝ))

/-- The 256-byte buffer containing each byte value exactly once, in
increasing order: `b'\x00\x01...\xff'`. -/
def uniformBuf : List Byte := List.range 256

lemma countNonOverlap_uniformBuf :
    ∀ x ∈ Finset.range 256,
      countNonOverlap (pyBytes x) uniformBuf =
        (if x = 0 then 257 else if x = 1 then 1 else 0) := by decide

lemma count_uniformBuf : ∀ v ∈ Finset.range 256, uniformBuf.count v = 1 := by decide

lemma uniformBuf_length : uniformBuf.length = 256 := by decide

lemma logb_two_inv256 : Real.logb 2 ((256 : ℝ)⁻¹) = -8 := by
  rw [Real.logb_inv]
  have h : (256 : ℝ) = 2 ^ (8 : ℕ) := by norm_num
  rw [h, Real.logb_pow, Real.logb_self_eq_one (by norm_num : (1:ℝ) < 2)]
  norm_num

lemma entTerm_inv256 : entTerm ((256 : ℝ)⁻¹) = 1 / 32 := by
  rw [entTerm, if_pos (by norm_num : (0:ℝ) < (256:ℝ)⁻¹), logb_two_inv256]
  norm_num

lemma shannonEntropySpec_uniformBuf : shannonEntropySpec uniformBuf = 8 := by
  rw [shannonEntropySpec, if_neg (by rw [uniformBuf_length]; norm_num)]
  have hcongr : ∀ v ∈ Finset.range 256,
      entTerm ((uniformBuf.count v : ℝ) / (uniformBuf.length : ℝ)) = 1 / 32 := by
    intro v hv
    rw [count_uniformBuf v hv, uniformBuf_length]
    have : ((1 : Nat) : ℝ) / ((256 : Nat) : ℝ) = (256 : ℝ)⁻¹ := by norm_num
    rw [this, entTerm_inv256]
  rw [Finset.sum_congr rfl hcongr, Finset.sum_const, Finset.card_range]
  norm_num

lemma extract_entropy_uniformBuf :
    extract_entropy uniformBuf =
      -((257 : ℝ) / 256 * Real.logb 2 (257 / 256)) + 1 / 32 := by
  rw [extract_entropy, if_neg (by rw [uniformBuf_length]; norm_num)]
  have hcongr : ∀ x ∈ Finset.range 256,
      entTerm ((countNonOverlap (pyBytes x) uniformBuf : ℝ) / (uniformBuf.length : ℝ)) =
        (if x = 0 then -((257 : ℝ) / 256 * Real.logb 2 (257 / 256)) else 0) +
        (if x = 1 then (1 : ℝ) / 32 else 0) := by
    intro x hx
    rw [countNonOverlap_uniformBuf x hx, uniformBuf_length]
    rcases eq_or_ne x 0 with rfl | h0
    · have h257 : entTerm ((257 : ℝ) / 256) =
          -((257 : ℝ) / 256 * Real.logb 2 (257 / 256)) := by
        rw [entTerm, if_pos (by norm_num)]
      rw [if_pos rfl, if_pos rfl, if_neg (by norm_num : (0 : Nat) ≠ 1)]
      push_cast
      rw [h257]
      ring
    · rcases eq_or_ne x 1 with rfl | h1
      · have h1t : entTerm ((1 : ℝ) / 256) = 1 / 32 := by
          have he : (1 : ℝ) / 256 = (256 : ℝ)⁻¹ := by norm_num
          rw [he, entTerm_inv256]
        rw [if_neg (by norm_num : (1 : Nat) ≠ 0), if_pos rfl,
          if_neg (by norm_num : (1 : Nat) ≠ 0), if_pos rfl]
        push_cast
        rw [h1t]
        ring
      · have h0t : entTerm ((0 : ℝ) / 256) = 0 := by
          rw [entTerm]
          norm_num
        rw [if_neg h0, if_neg h1, if_neg h0, if_neg h1]
        push_cast
        rw [h0t]
        ring
  rw [Finset.sum_congr rfl hcongr, Finset.sum_add_distrib,
    Finset.sum_ite_eq' (Finset.range 256) 0
      (fun _ => -((257 : ℝ) / 256 * Real.logb 2 (257 / 256))),
    Finset.sum_ite_eq' (Finset.range 256) 1 (fun _ => (1 : ℝ) / 32)]
  norm_num

/-! ## Inference service: `defender/inference_service.py`

The EMBER library's original `PEFeatureExtractor.feature_vector` and the
XGBoost scorer are external code; they enter the embedding as explicit
function parameters.  Everything else is translated from the source. -/

/-- Outcome of one call to EMBER's original `PEFeatureExtractor.feature_vector`
(external library code): it can raise, return `None`, or return a numeric
vector.  Floats are modelled as rationals. -/
inductive EmberResult where
  | raises
  | retNone
  | vec (v : List ℚ)

/-- `patched_feature_vector` installed by `apply_runtime_fixes`
(inference_service.py, lines 70-81): calls the original extractor and, if it
raises, returns the constant default vector `[0.0] * 2381`; a `None` result
passes through unchanged.  (The dict-key stringification branch applies only
to mapping results, which feature vectors are not.) -/
def patched_feature_vector (original : List Byte → EmberResult)
    (bytez : List Byte) : Option (List ℚ) :=
  match original bytez with
  | .raises => some (List.replicate 2381 0)
  | .retNone => none
  | .vec v => some v

/-- The `ValueError`s raised by `extract_features_from_exe`. -/
inductive ExtractError where
  | noneVec
  | badWidth (n : Nat)
deriving DecidableEq

/-- `extract_features_from_exe` (inference_service.py, lines 86-107): runs
the (patched) EMBER extractor on the file's bytes, raises if the result is
`None`, reshapes to one row, and raises unless the width is exactly 2381.
Reading the file from its path is modelled as passing the bytes directly. -/
def extract_features_from_exe (original : List Byte → EmberResult)
    (bytez : List Byte) : Except ExtractError (List ℚ) :=
  match patched_feature_vector original bytez with
  | none => .error .noneVec
  | some v => if v.length = 2381 then .ok v else .error (.badWidth v.length)

/-- An exception raised while scoring a feature vector (e.g. the model file
is missing, or xgboost fails). -/
inductive ScoreError where
  | exn (msg : String)
deriving DecidableEq

/-- The Python dict returned by `score_exe`: either the full result
`{"prob_malware": .., "label": .., "threshold": .., "num_features": ..}` or
the fail-open dict `{"label": 0}` produced by its `except` clause. -/
inductive ScoreOutcome where
  | full (prob : ℚ) (label : Nat) (threshold : ℚ) (num_features : Nat)
  | failOpen
deriving DecidableEq

/-- `res["label"]` of a `score_exe` result. -/
def ScoreOutcome.label : ScoreOutcome → Nat
  | .full _ l _ _ => l
  | .failOpen => 0

/-- `score_exe` (inference_service.py, lines 110-131): extracts features,
scores them, and thresholds the probability with
`label = int(prob >= threshold)`; any exception anywhere inside (import,
extraction, scoring) is caught and turned into the dict `{"label": 0}`.
`scorer` stands for `predict_proba` applied to the loaded booster. -/
def score_exe (original : List Byte → EmberResult)
    (scorer : List ℚ → Except ScoreError ℚ) (bytez : List Byte)
    (threshold : ℚ) : ScoreOutcome :=
  match extract_features_from_exe original bytez with
  | .error _ => .failOpen
  | .ok X =>
    match scorer X with
    | .error _ => .failOpen
    | .ok prob =>
      .full prob (if threshold ≤ prob then 1 else 0) threshold X.length

/-! ## Flask route: `defender/__main__.py` `predict_route` -/

/-- The parts of a Flask request the route reads. -/
structure HttpRequest where
  content_type : String
  body : List Byte

/-- The wire response: HTTP status and the `result` field of the JSON body
`{"result": r}`. -/
structure HttpResponse where
  status : Nat
  result : Nat
deriving DecidableEq

/-- `predict_route` (defender/__main__.py, lines 22-56).  `score` is the
`score_exe` call on the request body; `routeExnOutsideScore` models an
exception raised in the handler's `try` block outside `score_exe` (the
temp-file write or the import).  The returned Bool records whether
`score_exe` was invoked.  Flask's default status for a bare `jsonify`
response is 200. -/
def predict_route (score : List Byte → ScoreOutcome)
    (routeExnOutsideScore : Bool) (req : HttpRequest) : HttpResponse × Bool :=
  if req.content_type ≠ "application/octet-stream" then
    ({ status := 400, result := 0 }, false)
  else if req.body = [] then
    ({ status := 400, result := 0 }, false)
  else if routeExnOutsideScore then
    ({ status := 500, result := 0 }, false)
  else
    ({ status := 200, result := (score req.body).label }, true)

/-! ## XGBoost wrapper: `defender/models/predict_xgb.py`

The xgboost `Booster` object is opaque; the embedding identifies it by the
path it was loaded from and its recorded `best_iteration`.  The module-level
mutable `_CACHED_BOOSTER` becomes explicit state passing: each function takes
the cache before the call and returns the cache after it. -/

/-- Opaque model artifact: which path it was loaded from and the
`best_iteration` attribute xgboost may record (absent, or an integer). -/
structure Booster where
  source_path : String
  best_iteration : Option Int
deriving DecidableEq

/-- `_MODEL_PATH` (predict_xgb.py, line 12). -/
def xgbDefaultModelPath : String := "defender/models/xgb_model.json"

/-- The `FileNotFoundError` raised by `load_booster`. -/
inductive LoadError where
  | fileNotFound (path : String)
deriving DecidableEq

/-- `path = model_path or _MODEL_PATH`: Python `or` falls back on `None`
and on the empty string (both falsy). -/
def resolveModelPath (model_path : Option String) : String :=
  match model_path with
  | none => xgbDefaultModelPath
  | some s => if s = "" then xgbDefaultModelPath else s

/-- `load_booster` (predict_xgb.py, lines 15-25).  `fsHasFile` is
`os.path.exists`; `loadModel` is `xgb.Booster().load_model`.  Returns the
booster together with the cache after the call. -/
def load_booster (fsHasFile : String → Bool) (loadModel : String → Booster)
    (cache : Option Booster) (model_path : Option String) :
    Except LoadError (Booster × Option Booster) :=
  match cache with
  | some b => .ok (b, some b)
  | none =>
    let path := resolveModelPath model_path
    if fsHasFile path then
      let b := loadModel path
      .ok (b, some b)
    else
      .error (.fileNotFound path)

/-- `iteration_range` selection (predict_xgb.py, lines 36-40): when the
booster records a non-negative integer `best_iteration`, predict with
`iteration_range=(0, best_iteration + 1)`; otherwise a plain predict
(`none`). -/
def iterationRangeOf (b : Booster) : Option (Nat × Nat) :=
  match b.best_iteration with
  | some i => if 0 ≤ i then some (0, i.toNat + 1) else none
  | none => none

/-- `predict_proba` (predict_xgb.py, lines 28-41).  `boosterPredict` is the
external `booster.predict` on a DMatrix, given the optional iteration range.
A `List (List ℚ)` input is always 2-D, so the `ndim` check cannot fire, and
the float32 cast is the identity on the exact rationals of the model. -/
def predict_proba (fsHasFile : String → Bool) (loadModel : String → Booster)
    (boosterPredict : Booster → Option (Nat × Nat) → List (List ℚ) → List ℚ)
    (cache : Option Booster) (features : List (List ℚ))
    (model_path : Option String) :
    Except LoadError (List ℚ × Option Booster) :=
  match load_booster fsHasFile loadModel cache model_path with
  | .error e => .error e
  | .ok (booster, cacheAfter) =>
    .ok (boosterPredict booster (iterationRangeOf booster) features, cacheAfter)

/-- `predict_label` (predict_xgb.py, lines 44-46): elementwise
`(probs >= threshold).astype(np.int32)` over the `predict_proba` output. -/
def predict_label (fsHasFile : String → Bool) (loadModel : String → Booster)
    (boosterPredict : Booster → Option (Nat × Nat) → List (List ℚ) → List ℚ)
    (cache : Option Booster) (features : List (List ℚ)) (threshold : ℚ)
    (model_path : Option String) :
    Except LoadError (List Nat × Option Booster) :=
  match predict_proba fsHasFile loadModel boosterPredict cache features model_path with
  | .error e => .error e
  | .ok (probs, cacheAfter) =>
    .ok (probs.map (fun p => if threshold ≤ p then 1 else 0), cacheAfter)

/-! ## PE attribute extraction error path: `PEAttributeExtractor`
(`defender/feature_extractor.py`, lines 22-30 and 77-199)

`PEAttributeExtractor.__init__` calls `lief.PE.parse(list(bytez))` with no
exception handler, and `extract` dereferences `self.lief_binary` with no
handler either (the only local `try` is around `optional_header.baseof_data`).
`apply_runtime_fixes` (inference_service.py, lines 7-50) merely aliases
legacy lief exception *names* onto the lief module; it wraps nothing.  The
parsed-binary type and the attribute dictionary are abstract parameters: the
claims settled here concern only the failure channel. -/

/-- Possible outcomes of `lief.PE.parse` (external library): a parsed binary,
`None` (modern lief on unparseable input), or a raised native error. -/
inductive LiefParseResult (β : Type) where
  | binary (b : β)
  | retNone
  | raises (msg : String)

/-- The failure channel of `PEAttributeExtractor.extract` as seen by its
caller.  The first three constructors are the internal error kinds the spec
names; `nativeExn` is a raw low-level exception surfaced unmapped. -/
inductive ParseFailure where
  | MalformedFormat
  | Truncated
  | UnsupportedVariant
  | nativeExn (msg : String)
deriving DecidableEq

/-- Whether a failure is one of the spec's internal error kinds. -/
def ParseFailure.internalKind : ParseFailure → Bool
  | .MalformedFormat => true
  | .Truncated => true
  | .UnsupportedVariant => true
  | .nativeExn _ => false

/-- `PEAttributeExtractor(bytez).extract()`: parse in `__init__` (a raised
native error propagates as-is, there is no handler), then build the attribute
dictionary (`attrsOf`, abstract) from the parsed binary; if the parse
returned `None`, the very first field access `self.lief_binary.virtual_size`
raises an `AttributeError` on `None`. -/
def PEAttributeExtractor_extract {β γ : Type}
    (liefParse : List Byte → LiefParseResult β) (attrsOf : β → List Byte → γ)
    (bytez : List Byte) : Except ParseFailure γ :=
  match liefParse bytez with
  | .raises msg => .error (.nativeExn msg)
  | .retNone =>
    .error (.nativeExn "AttributeError: NoneType has no attribute virtual_size")
  | .binary b => .ok (attrsOf b bytez)

/-- The legacy-name → modern-name aliasing that `apply_runtime_fixes`
installs on the lief module (inference_service.py, lines 14-21).  It renames
exception classes; it does not catch or translate anything. -/
def legacyErrorAlias : List (String × String) :=
  [("bad_format", "file_format_error"), ("bad_file", "file_error"),
   ("pe_error", "parsing_error"), ("parser_error", "parsing_error"),
   ("read_out_of_bound", "read_out_of_bound"),
   ("not_implemented", "not_implemented"), ("not_found", "file_not_found")]

/-! ## Feature vectorizer: `PEFeatureExtractor`
(`defender/feature_extractor.py`, lines 201-239) -/

/-- `PEFeatureExtractor.NUMERICAL_ATTRIBUTES` (lines 203-208), in source
order. -/
def NUMERICAL_ATTRIBUTES : List String :=
  ["baseof_code", "baseof_data", "characteristics", "dll_characteristics",
   "entropy", "file_alignment", "imagebase", "machine", "magic",
   "numberof_rva_and_size", "numberof_sections", "numberof_symbols",
   "PE_TYPE", "pointerto_symbol_table", "size", "sizeof_code",
   "sizeof_headers", "sizeof_image", "sizeof_initialized_data",
   "sizeof_optional_header", "sizeof_uninitialized_data", "timestamp"]

/-- `PEFeatureExtractor.TEXTUAL_ATTRIBUTES` (line 211), in source order. -/
def TEXTUAL_ATTRIBUTES : List String := ["identify", "libraries", "functions"]

/-- `PEFeatureExtractor.extract_features` (lines 228-239): project the
numeric attributes in `NUMERICAL_ATTRIBUTES` order, then for each attribute
in `TEXTUAL_ATTRIBUTES` append the block produced by the pickled hashing
transformer, then apply the pickled scaler to the concatenation.  `attrs`
and `texts` read the one-row attribute DataFrame; `hashBlock` and `scaler`
are the two pickled artifacts. -/
def extract_features (attrs : String → ℚ) (texts : String → String)
    (hashBlock : String → List ℚ) (scaler : List ℚ → List ℚ) : List ℚ :=
  scaler (NUMERICAL_ATTRIBUTES.map attrs ++
    TEXTUAL_ATTRIBUTES.flatMap (fun a => hashBlock (texts a)))

/-! ## Batch extraction: `process_directory`
(`defender/feature_extractor.py`, lines 242-276)

One directory entry is a path together with the outcome of
`open(path).read()` followed by `PEAttributeExtractor(...).extract()` —
either an attribute row or the exception message.  The loop body appends a
row on success and prints an error line on failure, then continues. -/

/-- The per-file loop of `process_directory`: returns the collected rows
(each tagged with its `filepath` column) and the printed error log lines,
in iteration order. -/
def process_files {γ : Type} :
    List (String × Except String γ) → List (String × γ) × List String
  | [] => ([], [])
  | (path, .ok attrs) :: rest =>
    let done := process_files rest
    ((path, attrs) :: done.1, done.2)
  | (path, .error e) :: rest =>
    let done := process_files rest
    (done.1, ("Error processing " ++ path ++ ": " ++ e) :: done.2)

/-- The number of directory entries whose read-and-extract fails (the `E` of
the claim). -/
def countFailures {ε γ : Type} : List (String × Except ε γ) → Nat
  | [] => 0
  | (_, .error _) :: rest => countFailures rest + 1
  | (_, .ok _) :: rest => countFailures rest

/-! ## Claim theorems -/

/-- Claim C4 (code bug): the entropy is claimed to be base-2 Shannon entropy
of the byte-value histogram — 0 on empty content, 8.0 on a 256-byte buffer
containing each byte value exactly once.  `extract_entropy`, translated from
the source, does return 0 on empty content, but on the uniform buffer —
where the claimed histogram formula (`shannonEntropySpec`) gives exactly 8 —
it returns a value below 1: Python-3 `bytes(x)` denotes `x` zero bytes, not
the byte value `x`, so the code tallies runs of zero bytes instead of the
histogram. -/
theorem C4_extract_entropy_is_not_histogram_shannon :
    extract_entropy [] = 0 ∧
    shannonEntropySpec uniformBuf = 8 ∧
    extract_entropy uniformBuf < 1 := by
  refine ⟨by simp [extract_entropy], shannonEntropySpec_uniformBuf, ?_⟩
  rw [extract_entropy_uniformBuf]
  have hpos : 0 < Real.logb 2 ((257 : ℝ) / 256) :=
    Real.logb_pos (by norm_num) (by norm_num)
  nlinarith

/-- Claim C1 counterexample: a conforming request whose processing raises an
internal exception in the pipeline (here EMBER extraction returns `None`, so
`extract_features_from_exe` raises its `ValueError`) is answered with status
200 — a 2xx carrying the fail-open body — and not a server-error status:
`score_exe` swallows the exception before the route's 500 branch can see
it. -/
theorem C1_counterexample_pipeline_exception_yields_200 :
    predict_route
      (fun b => score_exe (fun _ => EmberResult.retNone)
        (fun _ => Except.ok (9 / 10)) b (1 / 2))
      false
      { content_type := "application/octet-stream", body := [77, 90] } =
      ({ status := 200, result := 0 }, true) := rfl

/-- Claim C1 (amended): for a conforming request, an exception raised inside
the scoring pipeline is caught by `score_exe` itself and the service responds
`{"result": 0}` with status 200; the 5xx branch (500 with `{"result": 0}`)
fires only for an exception raised in the route handler outside `score_exe`
(the temp-file write or the import). -/
theorem C1_amended_fail_open_statuses (original : List Byte → EmberResult)
    (scorer : List ℚ → Except ScoreError ℚ) (threshold : ℚ)
    (req : HttpRequest) (hct : req.content_type = "application/octet-stream")
    (hbody : req.body ≠ []) :
    (score_exe original scorer req.body threshold = .failOpen →
      predict_route (fun b => score_exe original scorer b threshold) false req =
        ({ status := 200, result := 0 }, true)) ∧
    predict_route (fun b => score_exe original scorer b threshold) true req =
      ({ status := 500, result := 0 }, false) := by
  constructor
  · intro hfail
    simp [predict_route, hct, hbody, hfail, ScoreOutcome.label]
  · simp [predict_route, hct, hbody]

/-- Witness for C1 (amended) at a concrete request and pipeline. -/
theorem C1_amended_witness :
    predict_route
      (fun b => score_exe (fun _ => EmberResult.retNone)
        (fun _ => Except.ok (9 / 10)) b (1 / 2))
      true
      { content_type := "application/octet-stream", body := [77, 90] } =
      ({ status := 500, result := 0 }, false) :=
  (C1_amended_fail_open_statuses (fun _ => EmberResult.retNone)
    (fun _ => Except.ok (9 / 10)) (1 / 2)
    { content_type := "application/octet-stream", body := [77, 90] }
    rfl (by decide)).2

/-- Claim C2: every vector `extract_features_from_exe` hands to the scorer
has width exactly 2381; the width is explicitly validated, and a mismatch is
a raised `ValueError` (`badWidth`), never a silently padded or truncated
vector. -/
theorem C2_feature_width_validated (original : List Byte → EmberResult)
    (bytez : List Byte) :
    (∀ v, extract_features_from_exe original bytez = .ok v →
      v.length = 2381) ∧
    (∀ v, patched_feature_vector original bytez = some v →
      v.length ≠ 2381 →
      extract_features_from_exe original bytez = .error (.badWidth v.length)) := by
  constructor
  · intro v hv
    unfold extract_features_from_exe at hv
    cases hp : patched_feature_vector original bytez with
    | none => rw [hp] at hv; exact Except.noConfusion hv
    | some w =>
      rw [hp] at hv
      dsimp only at hv
      by_cases hw : w.length = 2381
      · rw [if_pos hw] at hv
        injection hv with h
        rw [← h]
        exact hw
      · rw [if_neg hw] at hv
        exact Except.noConfusion hv
  · intro v hv hne
    unfold extract_features_from_exe
    rw [hv]
    dsimp only
    rw [if_neg hne]

/-- Witness for C2: a good-width extraction is accepted, a width-3 vector is
rejected with the hard error. -/
theorem C2_witness :
    (List.replicate 2381 (0 : ℚ)).length = 2381 ∧
    extract_features_from_exe (fun _ => EmberResult.vec [1, 2, 3]) [] =
      .error (.badWidth 3) := by
  constructor
  · exact (C2_feature_width_validated
      (fun _ => EmberResult.vec (List.replicate 2381 0)) []).1
      (List.replicate 2381 0)
      (by simp [extract_features_from_exe, patched_feature_vector])
  · exact (C2_feature_width_validated (fun _ => EmberResult.vec [1, 2, 3]) []).2
      [1, 2, 3] rfl (by decide)

/-- Claim C3 counterexample: on a raw input the parser cannot handle at all
(lief returns `None` for the empty input), `PEAttributeExtractor.extract`
surfaces the low-level `AttributeError` to its caller — none of the internal
error kinds `MalformedFormat`, `Truncated`, `UnsupportedVariant` is ever
produced. -/
theorem C3_counterexample_native_exception_surfaces :
    PEAttributeExtractor_extract
      (fun _ : List Byte => (LiefParseResult.retNone : LiefParseResult Unit))
      (fun _ _ => ()) [] =
      .error (.nativeExn "AttributeError: NoneType has no attribute virtual_size") ∧
    ParseFailure.internalKind
      (.nativeExn "AttributeError: NoneType has no attribute virtual_size") =
      false :=
  ⟨rfl, rfl⟩

/-- Claim C3 (amended): every failure of `PEAttributeExtractor.extract` is a
raw native exception passed through unmapped (a lief error propagating out of
`__init__`, or the `AttributeError` from dereferencing a `None` parse); no
internal error-kind mapping exists. -/
theorem C3_amended_failures_are_native {β γ : Type}
    (liefParse : List Byte → LiefParseResult β) (attrsOf : β → List Byte → γ)
    (bytez : List Byte) (e : ParseFailure)
    (he : PEAttributeExtractor_extract liefParse attrsOf bytez = .error e) :
    e.internalKind = false ∧ ∃ msg, e = .nativeExn msg := by
  unfold PEAttributeExtractor_extract at he
  cases h : liefParse bytez with
  | binary b =>
    rw [h] at he
    exact Except.noConfusion he
  | retNone =>
    rw [h] at he
    injection he with h2
    subst h2
    exact ⟨rfl, _, rfl⟩
  | raises msg =>
    rw [h] at he
    injection he with h2
    subst h2
    exact ⟨rfl, msg, rfl⟩

/-- Witness for C3 (amended) at the concrete unparseable input. -/
theorem C3_amended_witness :
    ParseFailure.internalKind
      (.nativeExn "AttributeError: NoneType has no attribute virtual_size") =
      false :=
  (C3_amended_failures_are_native
    (fun _ : List Byte => (LiefParseResult.retNone : LiefParseResult Unit))
    (fun _ _ => ()) [] _ rfl).1

/-- Claim C5 counterexample: the vectorizer hashes only three textual
attributes — `identify`, `libraries`, `functions` — not four: the
exported-function list (`exports_list`) is not among them, and changing it
leaves the produced feature vector unchanged. -/
theorem C5_counterexample_exports_not_hashed :
    "exports_list" ∉ TEXTUAL_ATTRIBUTES ∧
    "exports" ∉ TEXTUAL_ATTRIBUTES ∧
    TEXTUAL_ATTRIBUTES.length = 3 ∧
    extract_features (fun _ => 0)
      (fun a => if a = "exports_list" then "kernel32.dll SomeExportedName" else "")
      (fun s => [(s.length : ℚ)]) id =
    extract_features (fun _ => 0) (fun _ => "")
      (fun s => [(s.length : ℚ)]) id := by
  refine ⟨by decide, by decide, by decide, ?_⟩
  rfl

/-- Claim C5 (amended): `extract_features` applies the hashing transform to
exactly the three textual attributes `identify`, `libraries` and `functions`,
appending one hashed block per attribute after the numeric block; the
exported-function list contributes nothing, so the vector is invariant under
any change to textual attributes outside `TEXTUAL_ATTRIBUTES`. -/
theorem C5_amended_three_textual_blocks (attrs : String → ℚ)
    (texts1 texts2 : String → String) (hashBlock : String → List ℚ)
    (scaler : List ℚ → List ℚ)
    (h : ∀ a ∈ TEXTUAL_ATTRIBUTES, texts1 a = texts2 a) :
    extract_features attrs texts1 hashBlock scaler =
      scaler (NUMERICAL_ATTRIBUTES.map attrs ++
        (hashBlock (texts1 "identify") ++ hashBlock (texts1 "libraries") ++
          hashBlock (texts1 "functions"))) ∧
    extract_features attrs texts1 hashBlock scaler =
      extract_features attrs texts2 hashBlock scaler := by
  have e1 : texts1 "identify" = texts2 "identify" := h _ (by decide)
  have e2 : texts1 "libraries" = texts2 "libraries" := h _ (by decide)
  have e3 : texts1 "functions" = texts2 "functions" := h _ (by decide)
  constructor
  · simp [extract_features, TEXTUAL_ATTRIBUTES, List.append_assoc]
  · simp [extract_features, TEXTUAL_ATTRIBUTES, e1, e2, e3]

/-- Witness for C5 (amended): the vector ignores the exported-function
attribute at concrete inputs. -/
theorem C5_amended_witness :
    extract_features (fun _ => 0)
      (fun a => if a = "exports_list" then "kernel32.dll SomeExportedName" else "")
      (fun s => [(s.length : ℚ)]) id =
    extract_features (fun _ => (0 : ℚ)) (fun _ => "")
      (fun s => [(s.length : ℚ)]) id :=
  (C5_amended_three_textual_blocks (fun _ => 0)
    (fun a => if a = "exports_list" then "kernel32.dll SomeExportedName" else "")
    (fun _ => "") (fun s => [(s.length : ℚ)]) id (by decide)).2

/-- Claim C6: the decision label is `1` iff the probability is at least the
threshold — `int(prob >= threshold)` in `score_exe` and elementwise
`probs >= threshold` in `predict_label` — so at `prob = threshold`
(e.g. both 0.5, the default) the label is 1, inclusive toward malicious. -/
theorem C6_threshold_boundary_inclusive (original : List Byte → EmberResult)
    (scorer : List ℚ → Except ScoreError ℚ) (bytez : List Byte)
    (threshold prob : ℚ) (X : List ℚ)
    (hX : extract_features_from_exe original bytez = .ok X)
    (hp : scorer X = .ok prob) :
    score_exe original scorer bytez threshold =
      .full prob (if threshold ≤ prob then 1 else 0) threshold X.length ∧
    (prob = threshold → (score_exe original scorer bytez threshold).label = 1) ∧
    ∀ (fs : String → Bool) (lm : String → Booster)
      (bp : Booster → Option (Nat × Nat) → List (List ℚ) → List ℚ)
      (cache : Option Booster) (features : List (List ℚ)) (mp : Option String)
      (probs : List ℚ) (c : Option Booster),
      predict_proba fs lm bp cache features mp = .ok (probs, c) →
      predict_label fs lm bp cache features threshold mp =
        .ok (probs.map (fun p => if threshold ≤ p then 1 else 0), c) := by
  have hs : score_exe original scorer bytez threshold =
      .full prob (if threshold ≤ prob then 1 else 0) threshold X.length := by
    unfold score_exe
    rw [hX]
    dsimp only
    rw [hp]
  refine ⟨hs, ?_, ?_⟩
  · intro he
    subst he
    rw [hs]
    simp [ScoreOutcome.label]
  · intro fs lm bp cache features mp probs c hpp
    unfold predict_label
    rw [hpp]

/-- Witness for C6 at `prob = threshold = 1/2` on a concrete pipeline. -/
theorem C6_witness :
    (score_exe (fun _ => EmberResult.vec (List.replicate 2381 0))
      (fun _ => Except.ok (1 / 2)) [] (1 / 2)).label = 1 :=
  (C6_threshold_boundary_inclusive
    (fun _ => EmberResult.vec (List.replicate 2381 0))
    (fun _ => Except.ok (1 / 2)) [] (1 / 2) (1 / 2) (List.replicate 2381 0)
    (by simp [extract_features_from_exe, patched_feature_vector]) rfl).2.1 rfl

/-- Claim C7: a POST whose content type is not `application/octet-stream`, or
whose body is empty, is answered `{"result": 0}` with status 400 before the
pipeline is invoked (the returned flag records that `score_exe` never ran). -/
theorem C7_nonconforming_request_rejected (score : List Byte → ScoreOutcome)
    (routeExn : Bool) (req : HttpRequest)
    (h : req.content_type ≠ "application/octet-stream" ∨ req.body = []) :
    predict_route score routeExn req = ({ status := 400, result := 0 }, false) := by
  rcases h with h | h
  · simp [predict_route, h]
  · unfold predict_route
    by_cases hct : req.content_type ≠ "application/octet-stream"
    · rw [if_pos hct]
    · rw [if_neg hct, if_pos h]

/-- Witness for C7 on a concrete wrong-content-type request. -/
theorem C7_witness :
    predict_route (fun _ => ScoreOutcome.failOpen) false
      { content_type := "text/plain", body := [77] } =
      ({ status := 400, result := 0 }, false) :=
  C7_nonconforming_request_rejected (fun _ => ScoreOutcome.failOpen) false
    { content_type := "text/plain", body := [77] } (Or.inl (by decide))

/-- Claim C8: batch extraction over K files of which E fail produces exactly
K−E rows plus E logged errors, processes every file (rows and errors
partition the input), and the surviving rows are exactly the successful
files in order — the loop never aborts early. -/
theorem C8_batch_continues_past_failures {γ : Type}
    (files : List (String × Except String γ)) :
    (process_files files).1.length = files.length - countFailures files ∧
    (process_files files).2.length = countFailures files ∧
    (process_files files).1.length + (process_files files).2.length =
      files.length ∧
    (process_files files).1 = files.filterMap
      (fun pf => match pf.2 with
        | .ok a => some (pf.1, a)
        | .error _ => none) := by
  induction files with
  | nil => exact ⟨rfl, rfl, rfl, rfl⟩
  | cons pf rest ih =>
    obtain ⟨path, res⟩ := pf
    obtain ⟨ih1, ih2, ih3, ih4⟩ := ih
    cases res with
    | ok a =>
      refine ⟨?_, ?_, ?_, ?_⟩
      · simp only [process_files, List.length_cons, countFailures]
        omega
      · simp only [process_files, countFailures]
        omega
      · simp only [process_files, List.length_cons]
        omega
      · simp only [process_files, List.filterMap_cons]
        rw [ih4]
    | error e =>
      refine ⟨?_, ?_, ?_, ?_⟩
      · simp only [process_files, List.length_cons, countFailures]
        omega
      · simp only [process_files, List.length_cons, countFailures]
        omega
      · simp only [process_files, List.length_cons]
        omega
      · simp only [process_files, List.filterMap_cons]
        rw [ih4]

/-- Claim C9: once the module cache holds a booster, `load_booster` returns
the cached object and ignores its `model_path` argument entirely, so
`predict_proba` called with any explicit `model_path` still scores with the
first-loaded model (and leaves the cache unchanged). -/
theorem C9_cached_booster_ignores_model_path (fsHasFile : String → Bool)
    (loadModel : String → Booster)
    (boosterPredict : Booster → Option (Nat × Nat) → List (List ℚ) → List ℚ)
    (b : Booster) (features : List (List ℚ)) (p1 p2 : Option String) :
    load_booster fsHasFile loadModel (some b) p1 = .ok (b, some b) ∧
    predict_proba fsHasFile loadModel boosterPredict (some b) features p1 =
      .ok (boosterPredict b (iterationRangeOf b) features, some b) ∧
    predict_proba fsHasFile loadModel boosterPredict (some b) features p1 =
      predict_proba fsHasFile loadModel boosterPredict (some b) features p2 :=
  ⟨rfl, rfl, rfl⟩

/-- Claim C10: when EMBER extraction raises, the runtime-patched
`feature_vector` yields the constant zero vector of length 2381 instead of
propagating, that vector passes the width check, and every such input is
scored against the same zero vector — one fixed probability and label for
all of them. -/
theorem C10_extraction_failure_scores_zero_vector
    (original : List Byte → EmberResult)
    (scorer : List ℚ → Except ScoreError ℚ) (threshold : ℚ)
    (bytez : List Byte) (h : original bytez = .raises) :
    patched_feature_vector original bytez = some (List.replicate 2381 0) ∧
    extract_features_from_exe original bytez = .ok (List.replicate 2381 0) ∧
    score_exe original scorer bytez threshold =
      (match scorer (List.replicate 2381 0) with
       | .ok p => .full p (if threshold ≤ p then 1 else 0) threshold 2381
       | .error _ => .failOpen) ∧
    ∀ bytez2, original bytez2 = .raises →
      score_exe original scorer bytez2 threshold =
        score_exe original scorer bytez threshold := by
  have hlen : (List.replicate 2381 (0 : ℚ)).length = 2381 := by simp
  have hp : patched_feature_vector original bytez =
      some (List.replicate 2381 0) := by
    unfold patched_feature_vector
    rw [h]
  have he : extract_features_from_exe original bytez =
      .ok (List.replicate 2381 0) := by
    unfold extract_features_from_exe
    rw [hp]
    dsimp only
    rw [if_pos hlen]
  have hs : score_exe original scorer bytez threshold =
      (match scorer (List.replicate 2381 0) with
       | .ok p => .full p (if threshold ≤ p then 1 else 0) threshold 2381
       | .error _ => .failOpen) := by
    unfold score_exe
    rw [he]
    dsimp only
    cases hsc : scorer (List.replicate 2381 0) with
    | ok p => rw [hlen]
    | error err => rfl
  refine ⟨hp, he, hs, ?_⟩
  intro bytez2 h2
  have hp2 : patched_feature_vector original bytez2 =
      some (List.replicate 2381 0) := by
    unfold patched_feature_vector
    rw [h2]
  have he2 : extract_features_from_exe original bytez2 =
      .ok (List.replicate 2381 0) := by
    unfold extract_features_from_exe
    rw [hp2]
    dsimp only
    rw [if_pos hlen]
  unfold score_exe
  rw [he, he2]

/-- Witness for C10 on a concrete always-raising extractor. -/
theorem C10_witness :
    score_exe (fun _ => EmberResult.raises) (fun _ => Except.ok (3 / 4)) []
      (1 / 2) = .full (3 / 4) 1 (1 / 2) 2381 := by
  rw [(C10_extraction_failure_scores_zero_vector (fun _ => EmberResult.raises)
    (fun _ => Except.ok (3 / 4)) (1 / 2) [] rfl).2.2.1]
  dsimp only
  rw [if_pos (by norm_num : (1 : ℚ) / 2 ≤ 3 / 4)]

end Defender
